import Mathlib

/-!
Shallow embedding of `src/service/message.ts` (chatluna-character):
the `MessageCollector` class, its helper `mapElementToString`, and the
per-group state it manipulates.

Modelling conventions:
* JS `undefined`-able values become `Option`; `a ?? b` becomes
  `Option.getD` / `Option.orElse`; `===` on possibly-undefined strings
  becomes `==` on `Option String` (so `undefined === undefined` is `true`,
  as in JS).
* Template-literal interpolation of a possibly-undefined value prints
  the string "undefined" when the value is absent, as in JS.
* `Record<string, T>` becomes an association list `List (String × T)`
  read through `List.lookup`; a write prepends the new binding, which is
  observationally identical for lookups.
* Wall-clock time (`new Date().getTime()`) is an explicit `now : Nat`
  argument to every operation that reads the clock.
* The polling mutex `_lock` is modelled as the completed acquire: it
  returns `none` when the group's lock flag is already held (the JS poll
  loop would suspend), otherwise the state with the flag set. `_unlock`
  is the completed release: the caller holds the flag, so the poll
  resolves immediately and the flag is cleared.
* Subscribers registered via `collect` are async callbacks; a rejected
  promise does not unwind `EventEmitter.emit`, so a subscriber's outcome
  is recorded (`Except String Unit`) but never branched on.
-/

namespace ChatLuna

/-- A koishi `h` element, restricted to the shapes `mapElementToString`
distinguishes: `text` elements (with a `content` attribute), `at` mention
elements (with optional `id` and `name` attributes), and everything else. -/
inductive Element where
  | text (content : String)
  | at_ (id : Option String) (name : Option String)
  | other
deriving Repr, DecidableEq

/-- Bot identity fields read from `session.bot`. -/
structure Bot where
  selfId : Option String
  username : Option String
  userId : Option String
deriving Repr, DecidableEq

/-- Author identity fields read from `session.author` (or a quote's author). -/
structure Author where
  username : Option String
  userId : Option String
deriving Repr, DecidableEq

/-- The quoted message carried by `session.quote`. -/
structure SessionQuote where
  content : String
  elements : List Element
  author : Author
deriving Repr, DecidableEq

/-- The slice of a koishi `Session` that `MessageCollector` reads. -/
structure Session where
  isDirect : Bool
  guildId : String
  content : String
  elements : Option (List Element)
  author : Author
  quote : Option SessionQuote
  bot : Bot
deriving Repr, DecidableEq

/-- The quote snapshot stored inside a buffered `Message` (built inline in
`broadcast`: content, author name, author id; no nested quote). -/
structure MessageQuote where
  content : String
  name : Option String
  id : Option String
deriving Repr, DecidableEq

/-- A buffered message (`Message` from `../types`). `name` and `id` are
`Option` because the TS code copies possibly-undefined session fields into
them without always providing a fallback. -/
structure Message where
  content : String
  name : Option String
  id : Option String
  quote : Option MessageQuote := none
deriving Repr, DecidableEq

/-- Per-group lock record (`GroupLock`): the mutex flag and the
mute-until timestamp (`_getGroupLocks` initialises `mute` to 0). -/
structure GroupLock where
  lock : Bool
  mute : Nat
deriving Repr, DecidableEq

/-- Per-group temp data (`GroupTemp` from `../types`); the collector only
stores and retrieves it, defaulting to `{ completionMessages: [] }`. -/
structure GroupTemp where
  completionMessages : List String
deriving Repr, DecidableEq

/-- The plugin `Config` slice the collector reads: `maxMessages`. -/
structure Config where
  maxMessages : Nat
deriving Repr, DecidableEq

/-- JS string interpolation of a possibly-undefined value. -/
def optInterp : Option String → String
  | some s => s
  | none => "undefined"

/-- JS `String.prototype.trimEnd`: drop trailing whitespace characters
(implemented structurally over the character list so that it evaluates by
kernel reduction). -/
def trimEnd (s : String) : String :=
  String.mk ((s.data.reverse.dropWhile (fun c => c.isWhitespace)).reverse)

/-- The loop body of `mapElementToString`: pushes the raw (untrimmed)
content of a text element whose trimmed content is non-empty, or the
rendered `(name-id-<at>)` form of an `at` element; ignores everything
else. -/
def pushElement (session : Session) (acc : List String) (element : Element) :
    List String :=
  match element with
  | Element.text c =>
    if (trimEnd c).length < 1 then acc else acc ++ [c]
  | Element.at_ id name =>
    let name1 : Option String :=
      if id == session.bot.selfId then
        some ((name.orElse (fun _ => session.bot.username)).getD "0")
      else name
    let name2 : String := name1.getD (id.getD "0")
    acc ++ ["(" ++ name2 ++ "-" ++ optInterp id ++ "-<at>)"]
  | Element.other => acc

/-- `mapElementToString(session, content, elements)` from
`src/service/message.ts`: returns `''` when the raw `content`, trimmed of
trailing whitespace, is empty; otherwise folds `pushElement` over the
elements and joins the resulting buffer with no separator. -/
def mapElementToString (session : Session) (content : String)
    (elements : List Element) : String :=
  if (trimEnd content).length < 1 then ""
  else
    let filteredBuffer : List String :=
      elements.foldl (pushElement session) []
    String.join filteredBuffer

/-- The eviction loop shared by `broadcast` and `broadcastOnBot`:
`while (groupArray.length > maxMessageSize) groupArray.shift()`. -/
def shiftWhile (groupArray : List Message) (maxMessageSize : Nat) :
    List Message :=
  match groupArray with
  | [] => []
  | x :: xs =>
    if (x :: xs).length > maxMessageSize then shiftWhile xs maxMessageSize
    else x :: xs

/-- `groupArray.push(message)` followed by the eviction loop. -/
def pushEvict (groupArray : List Message) (message : Message)
    (maxMessageSize : Nat) : List Message :=
  shiftWhile (groupArray ++ [message]) maxMessageSize

/-- A registered filter (`MessageCollectorFilter`). -/
def MessageCollectorFilter := Session → Message → Bool

/-- A subscriber registered via `collect`; it is an async callback, so its
failure is a rejected promise (`Except.error`) that the emitter discards. -/
def Subscriber := Session → List Message → Except String Unit

/-- The mutable fields of a `MessageCollector` instance, plus the
`collect` listeners held by its `EventEmitter` and the injected config. -/
structure CollectorState where
  messages : List (String × List Message)
  listeners : List Subscriber
  filters : List MessageCollectorFilter
  groupLocks : List (String × GroupLock)
  groupTemp : List (String × GroupTemp)
  config : Config

/-- Read of `_getGroupLocks(groupId)`: the stored lock record, or the
freshly-created `{ lock: false, mute: 0 }`. (The TS method also stores the
fresh record; the store is observationally the identity for lookups, so
reads use this pure form.) -/
def getGroupLock (st : CollectorState) (groupId : String) : GroupLock :=
  (st.groupLocks.lookup groupId).getD { lock := false, mute := 0 }

/-- Overwrite a group's lock record (a field assignment through the
reference `_getGroupLocks` returns). -/
def setGroupLock (st : CollectorState) (groupId : String)
    (l : GroupLock) : CollectorState :=
  { st with groupLocks := (groupId, l) :: st.groupLocks }

/-- The completed `_lock(session)`: `none` when the flag is already held
(the poll loop would suspend until another critical section releases),
otherwise the state with the flag set. -/
def lockAcquire (st : CollectorState) (groupId : String) :
    Option CollectorState :=
  let groupLock := getGroupLock st groupId
  if groupLock.lock then none
  else some (setGroupLock st groupId { groupLock with lock := true })

/-- The completed `_unlock(session)`: the caller holds the flag, so the
poll resolves immediately and the flag is cleared. -/
def unlock (st : CollectorState) (groupId : String) : CollectorState :=
  let groupLock := getGroupLock st groupId
  setGroupLock st groupId { groupLock with lock := false }

namespace MessageCollector

/-- `addFilter(filter)`: push onto `_filters`. -/
def addFilter (st : CollectorState) (filter : MessageCollectorFilter) :
    CollectorState :=
  { st with filters := st.filters ++ [filter] }

/-- `collect(func)`: register a listener on the `collect` event. -/
def collect (st : CollectorState) (func : Subscriber) : CollectorState :=
  { st with listeners := st.listeners ++ [func] }

/-- `getMessages(groupId)`: unlocked read of the group's buffer. -/
def getMessages (st : CollectorState) (groupId : String) :
    Option (List Message) :=
  st.messages.lookup groupId

/-- `mute(session, time)`: reads the group's lock record (no mutex), then
sets `mute` to `now + time` when the stored timestamp is in the past,
and to `mute + time` otherwise. -/
def mute (st : CollectorState) (session : Session) (time now : Nat) :
    CollectorState :=
  let lock := getGroupLock st session.guildId
  let m := lock.mute
  let m' := if m < now then now + time else m + time
  setGroupLock st session.guildId { lock with mute := m' }

/-- `isMute(session)`: `lock.mute > new Date().getTime()` (no mutex). -/
def isMute (st : CollectorState) (session : Session) (now : Nat) : Bool :=
  (getGroupLock st session.guildId).mute > now

/-- `clear(groupId?)`: empty one group's buffer, or all of them. -/
def clear (st : CollectorState) (groupId : Option String) : CollectorState :=
  match groupId with
  | some gid => { st with messages := (gid, []) :: st.messages }
  | none => { st with messages := [] }

/-- `updateTemp(session, temp)`: lock, store the temp record, unlock.
`none` models the call suspending because the lock flag is held. -/
def updateTemp (st : CollectorState) (session : Session)
    (temp : GroupTemp) : Option CollectorState :=
  match lockAcquire st session.guildId with
  | none => none
  | some st1 =>
    let groupId := session.guildId
    let st2 := { st1 with groupTemp := (groupId, temp) :: st1.groupTemp }
    some (unlock st2 groupId)

/-- `getTemp(session)`: lock, read (defaulting to
`{ completionMessages: [] }` and storing the default back), unlock;
returns the temp record alongside the new state. -/
def getTemp (st : CollectorState) (session : Session) :
    Option (CollectorState × GroupTemp) :=
  match lockAcquire st session.guildId with
  | none => none
  | some st1 =>
    let groupId := session.guildId
    let temp := (st1.groupTemp.lookup groupId).getD { completionMessages := [] }
    let st2 := { st1 with groupTemp := (groupId, temp) :: st1.groupTemp }
    some (unlock st2 groupId, temp)

/-- `broadcastOnBot(session, elements)`: no-op for direct sessions;
otherwise lock, normalize, and either bail out on empty content or append
the bot-authored message (with eviction) — never consulting quotes,
filters or listeners — then unlock. -/
def broadcastOnBot (st : CollectorState) (session : Session)
    (elements : List Element) : Option CollectorState :=
  if session.isDirect then some st
  else
    match lockAcquire st session.guildId with
    | none => none
    | some st1 =>
      let groupId := session.guildId
      let maxMessageSize := st1.config.maxMessages
      let groupArray := (st1.messages.lookup groupId).getD []
      let content := mapElementToString session session.content elements
      if content.length < 1 then some (unlock st1 groupId)
      else
        let message : Message :=
          { content := content
            name := session.bot.username
            id := some (((session.bot.userId).orElse
              (fun _ => session.bot.selfId)).getD "0") }
        let groupArray2 := pushEvict groupArray message maxMessageSize
        let st2 := { st1 with messages := (groupId, groupArray2) :: st1.messages }
        some (unlock st2 groupId)

/-- The observable outcome of one completed `broadcast` call: the new
state, whether the `collect` event fired, and the (discarded) results the
listeners produced when it did. -/
structure BroadcastResult where
  state : CollectorState
  emitted : Bool
  subResults : List (Except String Unit)

/-- `broadcast(session)`: no-op for direct sessions; otherwise lock,
normalize (`session.elements`, defaulting to a single text element of
`session.content`), bail out on empty content, build the message (author
identity and optional normalized quote), append with eviction, emit
`collect` to every listener when some filter matches and the group is not
muted, and unlock. -/
def broadcast (st : CollectorState) (session : Session) (now : Nat) :
    Option BroadcastResult :=
  if session.isDirect then
    some { state := st, emitted := false, subResults := [] }
  else
    match lockAcquire st session.guildId with
    | none => none
    | some st1 =>
      let groupId := session.guildId
      let maxMessageSize := st1.config.maxMessages
      let groupArray := (st1.messages.lookup groupId).getD []
      let elements := session.elements.getD [Element.text session.content]
      let content := mapElementToString session session.content elements
      if content.length < 1 then
        some { state := unlock st1 groupId, emitted := false, subResults := [] }
      else
        let message : Message :=
          { content := content
            name := session.author.username
            id := session.author.userId
            quote := session.quote.map (fun q =>
              { content := mapElementToString session q.content q.elements
                name := q.author.username
                id := q.author.userId }) }
        let groupArray2 := pushEvict groupArray message maxMessageSize
        let st2 := { st1 with messages := (groupId, groupArray2) :: st1.messages }
        let cond := st2.filters.any (fun func => func session message) &&
          !(isMute st2 session now)
        some { state := unlock st2 groupId
               emitted := cond
               subResults := if cond then
                 st2.listeners.map (fun f => f session groupArray2) else [] }

end MessageCollector

/-- The string one element contributes to the normalized output (read off
the loop body of `mapElementToString`). -/
def elemContribution (session : Session) : Element → String
  | Element.text c => if (trimEnd c).length < 1 then "" else c
  | Element.at_ id name =>
    let name1 : Option String :=
      if id == session.bot.selfId then
        some ((name.orElse (fun _ => session.bot.username)).getD "0")
      else name
    "(" ++ name1.getD (id.getD "0") ++ "-" ++ optInterp id ++ "-<at>)"
  | Element.other => ""

/-- Concatenation of per-element contributions, in order. -/
def elementsToString (session : Session) : List Element → String
  | [] => ""
  | e :: es => elemContribution session e ++ elementsToString session es

/-- Modelled from the spec (§4.1), for comparison with the code: the text
branch contributes the trailing-whitespace-trimmed content (the code's
branch pushes the raw content); all other branches as in
`elemContribution`. -/
def specElemContribution (session : Session) : Element → String
  | Element.text c => if (trimEnd c).length < 1 then "" else trimEnd c
  | e => elemContribution session e

/-- Modelled from the spec (§4.1): the normalizer with spec-side text
contributions. -/
def specNormalize (session : Session) (content : String)
    (elements : List Element) : String :=
  if (trimEnd content).length < 1 then ""
  else
    elements.foldl (fun acc e => acc ++ specElemContribution session e) ""

lemma join_push (acc : List String) (x : String) :
    String.join (acc ++ [x]) = String.join acc ++ x := by
  simp [String.join, List.foldl_append]

lemma foldl_buffer_join (session : Session) (elems : List Element) :
    ∀ acc : List String,
      String.join (elems.foldl (pushElement session) acc) =
      String.join acc ++ elementsToString session elems := by
  induction elems with
  | nil => intro acc; simp [elementsToString]
  | cons e es ih =>
    intro acc
    rw [List.foldl_cons, ih]
    cases e with
    | text c =>
      by_cases hc : (trimEnd c).length < 1 <;>
        simp [pushElement, hc, elementsToString, elemContribution,
          join_push, String.append_assoc]
    | at_ id name =>
      simp [pushElement, elementsToString, elemContribution,
        join_push, String.append_assoc]
    | other =>
      simp [pushElement, elementsToString, elemContribution]

/-- `mapElementToString` is the raw-content emptiness guard followed by
the concatenation of per-element contributions. -/
lemma mapElementToString_eq (session : Session) (content : String)
    (elements : List Element) :
    mapElementToString session content elements =
      if (trimEnd content).length < 1 then ""
      else elementsToString session elements := by
  unfold mapElementToString
  by_cases h : (trimEnd content).length < 1
  · simp [h]
  · simp only [h, if_false, ite_false]
    rw [foldl_buffer_join session elements []]
    show "" ++ elementsToString session elements = _
    exact rfl

lemma elementsToString_append (session : Session) (l1 l2 : List Element) :
    elementsToString session (l1 ++ l2) =
      elementsToString session l1 ++ elementsToString session l2 := by
  induction l1 with
  | nil => simp [elementsToString]
  | cons e es ih => simp [elementsToString, ih, String.append_assoc]

/-- Splitting `mapElementToString` around one element when the raw content
survives the emptiness guard. -/
lemma mapElementToString_split (session : Session) (raw : String)
    (pre post : List Element) (e : Element)
    (h : ¬ (trimEnd raw).length < 1) :
    mapElementToString session raw (pre ++ e :: post) =
      mapElementToString session raw pre ++ elemContribution session e ++
        mapElementToString session raw post := by
  rw [mapElementToString_eq, mapElementToString_eq, mapElementToString_eq]
  simp only [h, if_false, ite_false]
  rw [elementsToString_append]
  simp [elementsToString, String.append_assoc]

/-- A sample bot identity used to instantiate universally quantified
theorems on concrete inputs. -/
def botA : Bot :=
  { selfId := some "B1", username := some "Assistant", userId := some "B1" }

/-- A sample group session. -/
def sessionA : Session :=
  { isDirect := false
    guildId := "g1"
    content := "hello"
    elements := none
    author := { username := some "alice", userId := some "a1" }
    quote := none
    bot := botA }

/-- C4. The claim says a text element contributes its trailing-whitespace-
trimmed content. The code (`filteredBuffer.push(content)` on the raw
attribute) pushes the untrimmed content: on raw text `"a"` with one text
element whose content is `"a "`, the code yields `"a "` while the claimed
behaviour (embodied by `specNormalize`) yields `"a"`. -/
theorem claim_C4_counterexample :
    mapElementToString sessionA "a" [Element.text "a "] = "a " ∧
    specNormalize sessionA "a" [Element.text "a "] = "a" ∧
    mapElementToString sessionA "a" [Element.text "a "] ≠
      specNormalize sessionA "a" [Element.text "a "] := by
  refine ⟨rfl, rfl, by decide⟩

/-- C4 (amended): normalize returns the empty string whenever the raw text
content trimmed of trailing whitespace has length 0, regardless of the
elements; otherwise each text element contributes its raw, untrimmed
content and is skipped entirely (contributes nothing) when its
trailing-whitespace-trimmed content is empty. -/
theorem claim_C4 :
    (∀ (session : Session) (raw : String) (elems : List Element),
      (trimEnd raw).length < 1 → mapElementToString session raw elems = "")
    ∧
    (∀ (session : Session) (raw : String) (pre post : List Element)
        (c : String), ¬ (trimEnd raw).length < 1 →
      mapElementToString session raw (pre ++ Element.text c :: post) =
        mapElementToString session raw pre ++
          (if (trimEnd c).length < 1 then "" else c) ++
          mapElementToString session raw post) := by
  constructor
  · intro session raw elems h
    rw [mapElementToString_eq]
    simp [h]
  · intro session raw pre post c h
    rw [mapElementToString_split session raw pre post (Element.text c) h]
    rfl

theorem claim_C4_witness :
    ((trimEnd "  ").length < 1 ∧
      mapElementToString sessionA "  " [Element.text "hi"] = "")
    ∧
    (¬ (trimEnd "a").length < 1 ∧
      mapElementToString sessionA "a" ([] ++ Element.text "a " :: []) =
        mapElementToString sessionA "a" [] ++
          (if (trimEnd "a ").length < 1 then "" else "a ") ++
          mapElementToString sessionA "a" []) :=
  ⟨⟨by decide, claim_C4.1 sessionA "  " [Element.text "hi"] (by decide)⟩,
   ⟨by decide, claim_C4.2 sessionA "a" [] [] "a " (by decide)⟩⟩

/-- C5: for every mention element inside a message whose raw content
survives the emptiness guard, the normalizer emits `(name-id-<at>)` where
`name` is the element's own name attribute when present, else the bot
username (or `'0'`) when the mentioned id equals `selfId`, else the
mentioned id (or `'0'`); and the two concrete examples from the spec. -/
theorem claim_C5 :
    (∀ (session : Session) (raw : String) (pre post : List Element)
        (id name : Option String), ¬ (trimEnd raw).length < 1 →
      mapElementToString session raw (pre ++ Element.at_ id name :: post) =
        mapElementToString session raw pre ++
          ("(" ++
            (match name with
             | some n => n
             | none =>
               if id == session.bot.selfId then session.bot.username.getD "0"
               else id.getD "0") ++
            "-" ++ optInterp id ++ "-<at>)") ++
          mapElementToString session raw post)
    ∧
    mapElementToString sessionA "hello"
      [Element.text "hello", Element.at_ (some "42") (some "Bob")] =
      "hello(Bob-42-<at>)"
    ∧
    mapElementToString sessionA "@Assistant"
      [Element.at_ (some "B1") none] = "(Assistant-B1-<at>)" := by
  refine ⟨?_, rfl, rfl⟩
  intro session raw pre post id name h
  rw [mapElementToString_split session raw pre post (Element.at_ id name) h]
  cases name with
  | some n =>
    by_cases hsel : id == session.bot.selfId <;>
      simp [elemContribution, hsel]
  | none =>
    by_cases hsel : id == session.bot.selfId <;>
      simp [elemContribution, hsel]

theorem claim_C5_witness :
    ¬ (trimEnd "x").length < 1 ∧
    mapElementToString sessionA "x"
        ([Element.text "x"] ++ Element.at_ (some "42") (some "Bob") :: []) =
      mapElementToString sessionA "x" [Element.text "x"] ++
        ("(" ++
          (match (some "Bob" : Option String) with
           | some n => n
           | none =>
             if (some "42" : Option String) == sessionA.bot.selfId then
               sessionA.bot.username.getD "0"
             else (some "42" : Option String).getD "0") ++
          "-" ++ optInterp (some "42") ++ "-<at>)") ++
        mapElementToString sessionA "x" [] :=
  ⟨by decide,
   claim_C5.1 sessionA "x" [Element.text "x"] [] (some "42") (some "Bob")
     (by decide)⟩

lemma getGroupLock_setGroupLock (st : CollectorState) (gid : String)
    (l : GroupLock) : getGroupLock (setGroupLock st gid l) gid = l := by
  simp [getGroupLock, setGroupLock, List.lookup]

/-- C6: `mute` adds `d` to the stored mute-until timestamp when that
timestamp is in the future and otherwise restarts the window at
`now + d` (the code's `m < now` test agrees with the claim's `m > now`
phrasing because at `m = now` both produce `now + d`); `isMute` is true
iff the stored timestamp is strictly greater than the current time. -/
theorem claim_C6 (st : CollectorState) (session : Session) (d now : Nat) :
    (getGroupLock (MessageCollector.mute st session d now)
        session.guildId).mute =
      (if (getGroupLock st session.guildId).mute > now
       then (getGroupLock st session.guildId).mute + d
       else now + d)
    ∧ (MessageCollector.isMute st session now = true ↔
        (getGroupLock st session.guildId).mute > now) := by
  constructor
  · unfold MessageCollector.mute
    rw [getGroupLock_setGroupLock]
    rcases Nat.lt_trichotomy (getGroupLock st session.guildId).mute now with
      h | h | h
    · simp [h, Nat.not_lt.mpr (Nat.le_of_lt h), Nat.lt_asymm h]
    · simp [h]
    · simp [Nat.not_lt.mpr (Nat.le_of_lt h), h]
  · simp [MessageCollector.isMute]

lemma shiftWhile_eq_drop (buf : List Message) (maxMessageSize : Nat) :
    shiftWhile buf maxMessageSize =
      buf.drop (buf.length - maxMessageSize) := by
  induction buf with
  | nil => simp [shiftWhile]
  | cons x xs ih =>
    unfold shiftWhile
    by_cases h : (x :: xs).length > maxMessageSize
    · have hidx : (x :: xs).length - maxMessageSize =
          (xs.length - maxMessageSize) + 1 := by
        simp only [List.length_cons] at h ⊢; omega
      simp only [h, if_true, ih, hidx, List.drop_succ_cons]
    · simp only [List.length_cons, gt_iff_lt] at h
      have hidx : xs.length + 1 - maxMessageSize = 0 := by omega
      simp [h, hidx]

lemma pushEvict_eq_drop (buf : List Message) (m : Message)
    (maxMessageSize : Nat) :
    pushEvict buf m maxMessageSize =
      (buf ++ [m]).drop ((buf ++ [m]).length - maxMessageSize) := by
  rw [pushEvict, shiftWhile_eq_drop]

/-- The full append history folded through push-and-evict. -/
def appendHistory (history : List Message) (maxMessageSize : Nat) :
    List Message :=
  history.foldl (fun buf m => pushEvict buf m maxMessageSize) []

lemma appendHistory_eq_drop (history : List Message)
    (maxMessageSize : Nat) :
    appendHistory history maxMessageSize =
      history.drop (history.length - maxMessageSize) := by
  induction history using List.reverseRecOn with
  | nil => simp [appendHistory]
  | append_singleton l a ih =>
    rw [appendHistory, List.foldl_append, List.foldl_cons, List.foldl_nil]
    rw [show List.foldl (fun buf m => pushEvict buf m maxMessageSize) [] l =
      appendHistory l maxMessageSize from rfl, ih]
    rw [pushEvict_eq_drop]
    have hk : l.length - maxMessageSize ≤ l.length := Nat.sub_le _ _
    rw [← List.drop_append_of_le_length hk, List.drop_drop]
    congr 1
    simp only [List.length_drop, List.length_append, List.length_cons,
      List.length_nil]
    omega

/-- C2: after any sequence of completed appends with capacity
`maxMessages`, the buffer has length at most `maxMessages`, and it is the
suffix of the full append history of length
`min (history.length) maxMessages` (oldest evicted first). -/
theorem claim_C2 (history : List Message) (maxMessages : Nat) :
    (appendHistory history maxMessages).length ≤ maxMessages
    ∧ appendHistory history maxMessages =
        history.drop (history.length - maxMessages)
    ∧ (appendHistory history maxMessages).length =
        min history.length maxMessages := by
  refine ⟨?_, appendHistory_eq_drop history maxMessages, ?_⟩ <;>
    rw [appendHistory_eq_drop, List.length_drop] <;> omega

lemma string_length_lt_one (s : String) : s.length < 1 ↔ s = "" := by
  constructor
  · intro h
    cases s with
    | mk data =>
      cases data with
      | nil => rfl
      | cons c cs => simp [String.length] at h
  · intro h; subst h; exact Nat.zero_lt_one

lemma lockAcquire_of_free (st : CollectorState) (gid : String)
    (h : (getGroupLock st gid).lock = false) :
    lockAcquire st gid =
      some (setGroupLock st gid { getGroupLock st gid with lock := true }) := by
  simp [lockAcquire, h]

lemma lockAcquire_of_held (st : CollectorState) (gid : String)
    (h : (getGroupLock st gid).lock = true) :
    lockAcquire st gid = none := by
  simp [lockAcquire, h]

/-- The content `broadcast` normalizes: `session.elements`, defaulting to
a single text element of `session.content`. -/
def broadcastContent (session : Session) : String :=
  mapElementToString session session.content
    (session.elements.getD [Element.text session.content])

/-- The message record `broadcast` builds for a non-empty normalized
content. -/
def broadcastMessage (session : Session) : Message :=
  { content := broadcastContent session
    name := session.author.username
    id := session.author.userId
    quote := session.quote.map (fun q =>
      { content := mapElementToString session q.content q.elements
        name := q.author.username
        id := q.author.userId }) }

/-- The message record `broadcastOnBot` builds: bot identity as author,
id falling back through `bot.userId ?? bot.selfId ?? '0'`, no quote. -/
def botMessage (session : Session) (elements : List Element) : Message :=
  { content := mapElementToString session session.content elements
    name := session.bot.username
    id := some (((session.bot.userId).orElse
      (fun _ => session.bot.selfId)).getD "0") }

lemma broadcast_direct (st : CollectorState) (session : Session) (now : Nat)
    (h : session.isDirect = true) :
    MessageCollector.broadcast st session now =
      some { state := st, emitted := false, subResults := [] } := by
  simp [MessageCollector.broadcast, h]

lemma broadcastOnBot_direct (st : CollectorState) (session : Session)
    (elements : List Element) (h : session.isDirect = true) :
    MessageCollector.broadcastOnBot st session elements = some st := by
  simp [MessageCollector.broadcastOnBot, h]

lemma broadcast_empty (st : CollectorState) (session : Session) (now : Nat)
    (h1 : session.isDirect = false)
    (h2 : (getGroupLock st session.guildId).lock = false)
    (h3 : broadcastContent session = "") :
    MessageCollector.broadcast st session now =
      some { state := unlock (setGroupLock st session.guildId
               { getGroupLock st session.guildId with lock := true })
               session.guildId
             emitted := false
             subResults := [] } := by
  unfold MessageCollector.broadcast
  rw [lockAcquire_of_free st session.guildId h2]
  simp only [h1, Bool.false_eq_true, if_false, ite_false]
  have hlen : (mapElementToString session session.content
      (session.elements.getD [Element.text session.content])).length < 1 := by
    rw [string_length_lt_one]; exact h3
  rw [if_pos hlen]

lemma broadcastOnBot_empty (st : CollectorState) (session : Session)
    (elements : List Element)
    (h1 : session.isDirect = false)
    (h2 : (getGroupLock st session.guildId).lock = false)
    (h3 : mapElementToString session session.content elements = "") :
    MessageCollector.broadcastOnBot st session elements =
      some (unlock (setGroupLock st session.guildId
        { getGroupLock st session.guildId with lock := true })
        session.guildId) := by
  unfold MessageCollector.broadcastOnBot
  rw [lockAcquire_of_free st session.guildId h2]
  simp only [h1, Bool.false_eq_true, if_false, ite_false]
  have hlen : (mapElementToString session session.content elements).length
      < 1 := by
    rw [string_length_lt_one]; exact h3
  rw [if_pos hlen]

lemma broadcast_nonempty (st : CollectorState) (session : Session) (now : Nat)
    (h1 : session.isDirect = false)
    (h2 : (getGroupLock st session.guildId).lock = false)
    (h3 : broadcastContent session ≠ "") :
    MessageCollector.broadcast st session now =
      (let message := broadcastMessage session
       let groupArray2 := pushEvict ((st.messages.lookup session.guildId).getD [])
         message st.config.maxMessages
       let cond := st.filters.any (fun func => func session message) &&
         !(MessageCollector.isMute st session now)
       let st2 := { (setGroupLock st session.guildId
                  { getGroupLock st session.guildId with lock := true }) with
                messages := (session.guildId, groupArray2) :: st.messages }
       some { state := unlock st2 session.guildId
              emitted := cond
              subResults := if cond then
                st.listeners.map (fun f => f session groupArray2) else [] }) := by
  unfold MessageCollector.broadcast
  rw [lockAcquire_of_free st session.guildId h2]
  simp only [h1, Bool.false_eq_true, if_false, ite_false]
  have hlen : ¬ (mapElementToString session session.content
      (session.elements.getD [Element.text session.content])).length < 1 := by
    rw [string_length_lt_one]; exact h3
  rw [if_neg hlen]
  simp [MessageCollector.isMute, getGroupLock, setGroupLock, unlock,
    List.lookup, broadcastMessage, broadcastContent]

lemma broadcastOnBot_nonempty (st : CollectorState) (session : Session)
    (elements : List Element)
    (h1 : session.isDirect = false)
    (h2 : (getGroupLock st session.guildId).lock = false)
    (h3 : mapElementToString session session.content elements ≠ "") :
    MessageCollector.broadcastOnBot st session elements =
      (let groupArray2 := pushEvict ((st.messages.lookup session.guildId).getD [])
         (botMessage session elements) st.config.maxMessages
       let st2 := { (setGroupLock st session.guildId
                  { getGroupLock st session.guildId with lock := true }) with
                messages := (session.guildId, groupArray2) :: st.messages }
       some (unlock st2 session.guildId)) := by
  unfold MessageCollector.broadcastOnBot
  rw [lockAcquire_of_free st session.guildId h2]
  simp only [h1, Bool.false_eq_true, if_false, ite_false]
  have hlen : ¬ (mapElementToString session session.content elements).length
      < 1 := by
    rw [string_length_lt_one]; exact h3
  rw [if_neg hlen]
  simp [setGroupLock, unlock, getGroupLock, List.lookup, botMessage]

lemma getGroupLock_unlock_self (st : CollectorState) (gid : String) :
    (getGroupLock (unlock st gid) gid).lock = false := by
  simp [unlock, getGroupLock_setGroupLock]

lemma messages_unlock (st : CollectorState) (gid : String) :
    (unlock st gid).messages = st.messages := rfl

/-- C1: with the group quiescent and the normalized content non-empty,
`broadcast` emits the buffer to the listeners exactly when some registered
filter accepts (session, message) and the group is not muted; when it
emits, every listener receives the post-append buffer; when the group is
muted it does not emit, yet the message is appended to the buffer in every
case. -/
theorem claim_C1 (st : CollectorState) (session : Session) (now : Nat)
    (h1 : session.isDirect = false)
    (h2 : (getGroupLock st session.guildId).lock = false)
    (h3 : broadcastContent session ≠ "") :
    ∃ r, MessageCollector.broadcast st session now = some r ∧
      (r.emitted = true ↔
        st.filters.any (fun func => func session (broadcastMessage session))
          = true ∧
        MessageCollector.isMute st session now = false) ∧
      (r.emitted = true →
        r.subResults = st.listeners.map (fun f => f session
          (pushEvict ((st.messages.lookup session.guildId).getD [])
            (broadcastMessage session) st.config.maxMessages))) ∧
      (r.emitted = false → r.subResults = []) ∧
      MessageCollector.getMessages r.state session.guildId =
        some (pushEvict ((st.messages.lookup session.guildId).getD [])
          (broadcastMessage session) st.config.maxMessages) := by
  rw [broadcast_nonempty st session now h1 h2 h3]
  refine ⟨_, rfl, ?_, ?_, ?_, ?_⟩
  · simp [Bool.and_eq_true, Bool.not_eq_true']
  · intro h
    simp only at h
    simp [h]
  · intro h
    simp only at h
    simp [h]
  · simp [MessageCollector.getMessages, messages_unlock, List.lookup]

/-- C7: with the group quiescent and the normalized content empty,
`broadcast` releases the mutex and returns with the buffer record
untouched, no emission and no listener invoked; `broadcastOnBot` with
empty normalized content likewise leaves the buffer untouched and releases
the mutex. -/
theorem claim_C7 (st : CollectorState) (session : Session) (now : Nat)
    (elements : List Element)
    (h1 : session.isDirect = false)
    (h2 : (getGroupLock st session.guildId).lock = false)
    (h3 : broadcastContent session = "")
    (h4 : mapElementToString session session.content elements = "") :
    (∃ r, MessageCollector.broadcast st session now = some r ∧
      r.state.messages = st.messages ∧
      r.emitted = false ∧ r.subResults = [] ∧
      (getGroupLock r.state session.guildId).lock = false) ∧
    (∃ st', MessageCollector.broadcastOnBot st session elements = some st' ∧
      st'.messages = st.messages ∧
      (getGroupLock st' session.guildId).lock = false) := by
  constructor
  · rw [broadcast_empty st session now h1 h2 h3]
    exact ⟨_, rfl, rfl, rfl, rfl, getGroupLock_unlock_self _ _⟩
  · rw [broadcastOnBot_empty st session elements h1 h2 h4]
    exact ⟨_, rfl, rfl, getGroupLock_unlock_self _ _⟩

/-- C3: the listener outcomes (including failures, i.e. rejected
promises) are never consulted by `broadcast`: whatever subscribers are
registered, the call completes, the group's lock flag ends up cleared,
and the resulting buffer record and emission decision are identical. -/
theorem claim_C3 (st : CollectorState) (session : Session) (now : Nat)
    (L1 L2 : List Subscriber)
    (h1 : session.isDirect = false)
    (h2 : (getGroupLock st session.guildId).lock = false) :
    ∃ r1 r2,
      MessageCollector.broadcast { st with listeners := L1 } session now
        = some r1 ∧
      MessageCollector.broadcast { st with listeners := L2 } session now
        = some r2 ∧
      (getGroupLock r1.state session.guildId).lock = false ∧
      (getGroupLock r2.state session.guildId).lock = false ∧
      r1.state.messages = r2.state.messages ∧
      r1.emitted = r2.emitted := by
  by_cases h3 : broadcastContent session = ""
  · rw [broadcast_empty { st with listeners := L1 } session now h1 h2 h3,
      broadcast_empty { st with listeners := L2 } session now h1 h2 h3]
    exact ⟨_, _, rfl, rfl, getGroupLock_unlock_self _ _,
      getGroupLock_unlock_self _ _, rfl, rfl⟩
  · rw [broadcast_nonempty { st with listeners := L1 } session now h1 h2 h3,
      broadcast_nonempty { st with listeners := L2 } session now h1 h2 h3]
    refine ⟨_, _, rfl, rfl, getGroupLock_unlock_self _ _,
      getGroupLock_unlock_self _ _, rfl, rfl⟩

/-- C8: for direct sessions both paths return immediately with no state
change; for a quiescent group with non-empty content, `broadcastOnBot`
appends via the same push-and-evict and releases the lock, but the
buffered message carries the bot identity as author and no quote, and the
whole call neither reads the filters nor the listeners (replacing them
changes nothing but those fields in the result). -/
theorem claim_C8 (st : CollectorState) (session : Session)
    (elements : List Element) (now : Nat) :
    (session.isDirect = true →
      MessageCollector.broadcast st session now =
        some { state := st, emitted := false, subResults := [] } ∧
      MessageCollector.broadcastOnBot st session elements = some st)
    ∧ (session.isDirect = false →
       (getGroupLock st session.guildId).lock = false →
       mapElementToString session session.content elements ≠ "" →
      ∃ st', MessageCollector.broadcastOnBot st session elements = some st' ∧
        MessageCollector.getMessages st' session.guildId =
          some (pushEvict ((st.messages.lookup session.guildId).getD [])
            (botMessage session elements) st.config.maxMessages) ∧
        (getGroupLock st' session.guildId).lock = false ∧
        (botMessage session elements).name = session.bot.username ∧
        (botMessage session elements).id = some (((session.bot.userId).orElse
          (fun _ => session.bot.selfId)).getD "0") ∧
        (botMessage session elements).quote = none)
    ∧ (∀ (F : List MessageCollectorFilter) (L : List Subscriber),
        session.isDirect = false →
        (getGroupLock st session.guildId).lock = false →
        MessageCollector.broadcastOnBot
            { st with filters := F, listeners := L } session elements =
          (MessageCollector.broadcastOnBot st session elements).map
            (fun s => { s with filters := F, listeners := L })) := by
  refine ⟨?_, ?_, ?_⟩
  · intro h
    exact ⟨broadcast_direct st session now h,
      broadcastOnBot_direct st session elements h⟩
  · intro h1 h2 h3
    rw [broadcastOnBot_nonempty st session elements h1 h2 h3]
    exact ⟨_, rfl, by simp [MessageCollector.getMessages, messages_unlock,
      List.lookup], getGroupLock_unlock_self _ _, rfl, rfl, rfl⟩
  · intro F L h1 h2
    by_cases h3 : mapElementToString session session.content elements = ""
    · rw [broadcastOnBot_empty { st with filters := F, listeners := L }
        session elements h1 h2 h3,
        broadcastOnBot_empty st session elements h1 h2 h3]
      simp [unlock, setGroupLock, getGroupLock]
    · rw [broadcastOnBot_nonempty { st with filters := F, listeners := L }
        session elements h1 h2 h3,
        broadcastOnBot_nonempty st session elements h1 h2 h3]
      simp [unlock, setGroupLock, getGroupLock]

/-- The empty collector with capacity 10. -/
def stEmpty : CollectorState :=
  { messages := []
    listeners := []
    filters := []
    groupLocks := []
    groupTemp := []
    config := { maxMessages := 10 } }

/-- A group session whose author has no user id. -/
def sessionNoId : Session :=
  { isDirect := false
    guildId := "g1"
    content := "hi"
    elements := none
    author := { username := some "bob", userId := none }
    quote := none
    bot := botA }

/-- C9. The claim says every buffered message's id falls back to `'0'`
when the sender identifier is unavailable. `broadcast` (line 185) stores
`session.author.userId` with no fallback: a session whose author has no
user id is buffered with an absent id, not `'0'`. -/
theorem claim_C9_counterexample :
    (MessageCollector.broadcast stEmpty sessionNoId 0).map
      (fun r => MessageCollector.getMessages r.state "g1") =
      some (some [({ content := "hi", name := some "bob", id := none,
                     quote := none } : Message)]) ∧
    (none : Option String) ≠ some "0" := by
  exact ⟨rfl, by decide⟩

/-- C9 (amended): `broadcastOnBot` falls back through
`bot.userId ?? bot.selfId ?? '0'`, so its buffered id is never absent;
`broadcast` stores the author's user id verbatim with no fallback, so a
missing author id is buffered as missing; neither path fails on a missing
id (both still complete and append). -/
theorem claim_C9 (st : CollectorState) (session : Session)
    (elements : List Element) (now : Nat)
    (h1 : session.isDirect = false)
    (h2 : (getGroupLock st session.guildId).lock = false)
    (h3 : broadcastContent session ≠ "")
    (h4 : mapElementToString session session.content elements ≠ "") :
    (∃ r, MessageCollector.broadcast st session now = some r ∧
      MessageCollector.getMessages r.state session.guildId =
        some (pushEvict ((st.messages.lookup session.guildId).getD [])
          (broadcastMessage session) st.config.maxMessages) ∧
      (broadcastMessage session).id = session.author.userId) ∧
    (∃ st', MessageCollector.broadcastOnBot st session elements = some st' ∧
      MessageCollector.getMessages st' session.guildId =
        some (pushEvict ((st.messages.lookup session.guildId).getD [])
          (botMessage session elements) st.config.maxMessages) ∧
      (botMessage session elements).id = some (((session.bot.userId).orElse
        (fun _ => session.bot.selfId)).getD "0")) := by
  constructor
  · rw [broadcast_nonempty st session now h1 h2 h3]
    exact ⟨_, rfl, by simp [MessageCollector.getMessages, messages_unlock,
      List.lookup], rfl⟩
  · rw [broadcastOnBot_nonempty st session elements h1 h2 h4]
    exact ⟨_, rfl, by simp [MessageCollector.getMessages, messages_unlock,
      List.lookup], rfl⟩

/-- A collector whose group `g1` currently has its lock flag held by a
critical section. -/
def stLocked : CollectorState :=
  { messages := []
    listeners := []
    filters := []
    groupLocks := [("g1", { lock := true, mute := 0 })]
    groupTemp := []
    config := { maxMessages := 10 } }

/-- C10. The claim says `mute` (and `isMute`) take the group mutex like
the buffer operations do, and that none of them touches per-group state
while the lock flag is held by another critical section. `mute`
(lines 23–32) never reads the lock flag: with `g1` locked it still
rewrites the mute timestamp (and the flag stays held), so the claimed
universally-quantified discipline is false. -/
theorem claim_C10_counterexample :
    ¬ (∀ (st : CollectorState) (session : Session) (d now : Nat),
        (getGroupLock st session.guildId).lock = true →
        MessageCollector.mute st session d now = st) := by
  intro h
  have h2 := congrArg (fun s => (getGroupLock s sessionA.guildId).mute)
    (h stLocked sessionA 5 100 rfl)
  exact absurd (h2 : (105 : Nat) = 0) (by decide)

/-- C10 (amended): the temp-data accessors `getTemp` and `updateTemp`
take the group's mutex — they cannot proceed while the flag is held, and
when it is free they acquire it, touch the temp record, and leave the
flag released — whereas `mute` and `isMute` access the group's mute
timestamp directly with no locking: `mute` proceeds regardless of the
flag and leaves it unchanged, and `isMute` is a plain read of the stored
timestamp against the clock. -/
theorem claim_C10 (st : CollectorState) (session : Session)
    (temp : GroupTemp) (d now : Nat) :
    ((getGroupLock st session.guildId).lock = true →
      MessageCollector.updateTemp st session temp = none ∧
      MessageCollector.getTemp st session = none)
    ∧ ((getGroupLock st session.guildId).lock = false →
      (∃ st', MessageCollector.updateTemp st session temp = some st' ∧
        (getGroupLock st' session.guildId).lock = false ∧
        st'.groupTemp.lookup session.guildId = some temp) ∧
      (∃ p, MessageCollector.getTemp st session = some p ∧
        (getGroupLock p.1 session.guildId).lock = false ∧
        p.2 = (st.groupTemp.lookup session.guildId).getD
          { completionMessages := [] }))
    ∧ (getGroupLock (MessageCollector.mute st session d now)
        session.guildId).lock = (getGroupLock st session.guildId).lock
    ∧ MessageCollector.isMute st session now =
        decide ((getGroupLock st session.guildId).mute > now) := by
  refine ⟨?_, ?_, ?_, rfl⟩
  · intro h
    constructor
    · unfold MessageCollector.updateTemp
      rw [lockAcquire_of_held st session.guildId h]
    · unfold MessageCollector.getTemp
      rw [lockAcquire_of_held st session.guildId h]
  · intro h
    constructor
    · unfold MessageCollector.updateTemp
      rw [lockAcquire_of_free st session.guildId h]
      exact ⟨_, rfl, getGroupLock_unlock_self _ _, by
        simp [unlock, setGroupLock, List.lookup]⟩
    · unfold MessageCollector.getTemp
      rw [lockAcquire_of_free st session.guildId h]
      exact ⟨_, rfl, getGroupLock_unlock_self _ _, rfl⟩
  · unfold MessageCollector.mute
    rw [getGroupLock_setGroupLock]

/-- A collector with one always-true filter and one failing subscriber. -/
def stFiltered : CollectorState :=
  { messages := []
    listeners := [fun _ _ => Except.error "subscriber failed"]
    filters := [fun _ _ => true]
    groupLocks := []
    groupTemp := []
    config := { maxMessages := 2 } }

/-- A direct (private) session. -/
def sessionDirect : Session := { sessionA with isDirect := true }

/-- A group session whose raw content is whitespace-only. -/
def sessionBlank : Session :=
  { isDirect := false
    guildId := "g1"
    content := "  "
    elements := none
    author := { username := some "bob", userId := some "b" }
    quote := none
    bot := botA }

theorem claim_C1_witness :
    sessionA.isDirect = false ∧
    (getGroupLock stFiltered sessionA.guildId).lock = false ∧
    broadcastContent sessionA ≠ "" ∧
    (∃ r, MessageCollector.broadcast stFiltered sessionA 0 = some r ∧
      (r.emitted = true ↔
        stFiltered.filters.any
          (fun func => func sessionA (broadcastMessage sessionA)) = true ∧
        MessageCollector.isMute stFiltered sessionA 0 = false) ∧
      (r.emitted = true →
        r.subResults = stFiltered.listeners.map (fun f => f sessionA
          (pushEvict ((stFiltered.messages.lookup sessionA.guildId).getD [])
            (broadcastMessage sessionA) stFiltered.config.maxMessages))) ∧
      (r.emitted = false → r.subResults = []) ∧
      MessageCollector.getMessages r.state sessionA.guildId =
        some (pushEvict ((stFiltered.messages.lookup sessionA.guildId).getD [])
          (broadcastMessage sessionA) stFiltered.config.maxMessages)) :=
  ⟨rfl, rfl, by decide, claim_C1 stFiltered sessionA 0 rfl rfl (by decide)⟩

theorem claim_C3_witness :
    sessionA.isDirect = false ∧
    (getGroupLock stEmpty sessionA.guildId).lock = false ∧
    (∃ r1 r2,
      MessageCollector.broadcast
        { stEmpty with listeners := [fun _ _ => Except.error "boom"] }
        sessionA 0 = some r1 ∧
      MessageCollector.broadcast { stEmpty with listeners := [] }
        sessionA 0 = some r2 ∧
      (getGroupLock r1.state sessionA.guildId).lock = false ∧
      (getGroupLock r2.state sessionA.guildId).lock = false ∧
      r1.state.messages = r2.state.messages ∧
      r1.emitted = r2.emitted) :=
  ⟨rfl, rfl,
    claim_C3 stEmpty sessionA 0 [fun _ _ => Except.error "boom"] [] rfl rfl⟩

theorem claim_C7_witness :
    sessionBlank.isDirect = false ∧
    (getGroupLock stEmpty sessionBlank.guildId).lock = false ∧
    broadcastContent sessionBlank = "" ∧
    mapElementToString sessionBlank sessionBlank.content [Element.text "hi"]
      = "" ∧
    ((∃ r, MessageCollector.broadcast stEmpty sessionBlank 0 = some r ∧
      r.state.messages = stEmpty.messages ∧
      r.emitted = false ∧ r.subResults = [] ∧
      (getGroupLock r.state sessionBlank.guildId).lock = false) ∧
    (∃ st', MessageCollector.broadcastOnBot stEmpty sessionBlank
        [Element.text "hi"] = some st' ∧
      st'.messages = stEmpty.messages ∧
      (getGroupLock st' sessionBlank.guildId).lock = false)) :=
  ⟨rfl, rfl, by decide, by decide,
    claim_C7 stEmpty sessionBlank 0 [Element.text "hi"] rfl rfl
      (by decide) (by decide)⟩

theorem claim_C8_witness :
    (sessionDirect.isDirect = true ∧
      MessageCollector.broadcast stEmpty sessionDirect 0 =
        some { state := stEmpty, emitted := false, subResults := [] } ∧
      MessageCollector.broadcastOnBot stEmpty sessionDirect
        [Element.text "yo"] = some stEmpty) ∧
    (sessionA.isDirect = false ∧
      (getGroupLock stEmpty sessionA.guildId).lock = false ∧
      mapElementToString sessionA sessionA.content [Element.text "yo"] ≠ "" ∧
      (∃ st', MessageCollector.broadcastOnBot stEmpty sessionA
          [Element.text "yo"] = some st' ∧
        MessageCollector.getMessages st' sessionA.guildId =
          some (pushEvict ((stEmpty.messages.lookup sessionA.guildId).getD [])
            (botMessage sessionA [Element.text "yo"])
            stEmpty.config.maxMessages) ∧
        (getGroupLock st' sessionA.guildId).lock = false ∧
        (botMessage sessionA [Element.text "yo"]).name =
          sessionA.bot.username ∧
        (botMessage sessionA [Element.text "yo"]).id =
          some (((sessionA.bot.userId).orElse
            (fun _ => sessionA.bot.selfId)).getD "0") ∧
        (botMessage sessionA [Element.text "yo"]).quote = none)) ∧
    MessageCollector.broadcastOnBot
        { stEmpty with filters := [fun _ _ => false], listeners := [] }
        sessionA [Element.text "yo"] =
      (MessageCollector.broadcastOnBot stEmpty sessionA
        [Element.text "yo"]).map
        (fun s => { s with filters := [fun _ _ => false], listeners := [] }) :=
  ⟨⟨rfl,
    ((claim_C8 stEmpty sessionDirect [Element.text "yo"] 0).1 rfl).1,
    ((claim_C8 stEmpty sessionDirect [Element.text "yo"] 0).1 rfl).2⟩,
   ⟨rfl, rfl, by decide,
    (claim_C8 stEmpty sessionA [Element.text "yo"] 0).2.1 rfl rfl (by decide)⟩,
   (claim_C8 stEmpty sessionA [Element.text "yo"] 0).2.2
     [fun _ _ => false] [] rfl rfl⟩

theorem claim_C9_witness :
    sessionNoId.isDirect = false ∧
    (getGroupLock stEmpty sessionNoId.guildId).lock = false ∧
    broadcastContent sessionNoId ≠ "" ∧
    mapElementToString sessionNoId sessionNoId.content [Element.text "yo"]
      ≠ "" ∧
    ((∃ r, MessageCollector.broadcast stEmpty sessionNoId 0 = some r ∧
      MessageCollector.getMessages r.state sessionNoId.guildId =
        some (pushEvict ((stEmpty.messages.lookup sessionNoId.guildId).getD [])
          (broadcastMessage sessionNoId) stEmpty.config.maxMessages) ∧
      (broadcastMessage sessionNoId).id = sessionNoId.author.userId) ∧
    (∃ st', MessageCollector.broadcastOnBot stEmpty sessionNoId
        [Element.text "yo"] = some st' ∧
      MessageCollector.getMessages st' sessionNoId.guildId =
        some (pushEvict ((stEmpty.messages.lookup sessionNoId.guildId).getD [])
          (botMessage sessionNoId [Element.text "yo"])
          stEmpty.config.maxMessages) ∧
      (botMessage sessionNoId [Element.text "yo"]).id =
        some (((sessionNoId.bot.userId).orElse
          (fun _ => sessionNoId.bot.selfId)).getD "0"))) :=
  ⟨rfl, rfl, by decide, by decide,
    claim_C9 stEmpty sessionNoId [Element.text "yo"] 0 rfl rfl
      (by decide) (by decide)⟩

theorem claim_C10_witness :
    ((getGroupLock stLocked sessionA.guildId).lock = true ∧
      (MessageCollector.updateTemp stLocked sessionA
        { completionMessages := [] } = none ∧
       MessageCollector.getTemp stLocked sessionA = none)) ∧
    ((getGroupLock stEmpty sessionA.guildId).lock = false ∧
      ((∃ st', MessageCollector.updateTemp stEmpty sessionA
          { completionMessages := ["m"] } = some st' ∧
        (getGroupLock st' sessionA.guildId).lock = false ∧
        st'.groupTemp.lookup sessionA.guildId =
          some { completionMessages := ["m"] }) ∧
      (∃ p, MessageCollector.getTemp stEmpty sessionA = some p ∧
        (getGroupLock p.1 sessionA.guildId).lock = false ∧
        p.2 = (stEmpty.groupTemp.lookup sessionA.guildId).getD
          { completionMessages := [] }))) :=
  ⟨⟨rfl, (claim_C10 stLocked sessionA { completionMessages := [] } 0 0).1 rfl⟩,
   ⟨rfl,
    (claim_C10 stEmpty sessionA { completionMessages := ["m"] } 0 0).2.1 rfl⟩⟩

end ChatLuna
